import Mathlib

/-!
# Taskbuddy — Reminder & Notification Scheduling Engine, verified model

Shallow embedding of the core of the Taskbuddy repository (`src/App.tsx`
dispatcher and scheduler logic, `src/types.ts` data model).  Timestamps are
modelled as integers (milliseconds since an epoch taken at local midnight, so
that the wall-clock `getHours`/`getMinutes` arithmetic of the source is plain
integer arithmetic).  A reminder timestamp string and its parsed value are
identified: the composite reminder key `taskId-timestamp` of the source is
modelled as the pair `(taskId, timestamp)`.
-/

set_option maxRecDepth 4000

namespace Taskbuddy

/-- The field `priority` of `src/types.ts`: one of `high`, `medium`, `low`. -/
inductive Priority where
  | high
  | medium
  | low
deriving DecidableEq, Repr

/-- The literal string stored for a priority in the source. -/
def priorityString : Priority → String
  | .high => "high"
  | .medium => "medium"
  | .low => "low"

/-- The optional field `type` of `src/types.ts`: one of `Appointment`,
`Meeting`, `Assignment`, `Other`. -/
inductive TaskType where
  | Appointment
  | Meeting
  | Assignment
  | Other
deriving DecidableEq, Repr

/-- Values accepted for `newStatus` by `updateTask`: `completed` or `pending`. -/
inductive TaskStatus where
  | completed
  | pending
deriving DecidableEq, Repr

/-- The `Task` record of `src/types.ts`.  Optional fields are `Option`s;
`reminders?: string[]` keeps its optionality (the scheduler tests
`!task.reminders`, which is false for an empty array). -/
structure Task where
  id : String
  text : String
  isCompleted : Bool
  dueDate : Option Int
  priority : Priority
  userName : String
  reminders : Option (List Int)
  createdAt : Int
  completedAt : Option Int
  category : Option String
  type : Option TaskType
  customNotificationTime : Option Int
deriving DecidableEq, Repr

/-! ## NotificationTimeComputer — `handleGenerateNotificationSchedule` -/

/-- The helper `subtractTime` of the source: `setHours(getHours()-h)`
then `setMinutes(getMinutes()-m)`, i.e. subtract `h` hours and `m` minutes. -/
def subtractTime (date : Int) (hours : Int) (minutes : Int) : Int :=
  date - (hours * 3600000 + minutes * 60000)

/-- Two-digit zero padding, the `padStart` rendering of the source. -/
def pad2 (n : Nat) : String :=
  if n < 10 then "0" ++ toString n else toString n

/-- Local wall-clock hour of a timestamp (`Date.prototype.getHours`). -/
def tsHours (t : Int) : Nat := ((t.ediv 3600000).emod 24).toNat

/-- Local wall-clock minute of a timestamp (`Date.prototype.getMinutes`). -/
def tsMinutes (t : Int) : Nat := ((t.ediv 60000).emod 60).toNat

/-- Local wall-clock second of a timestamp (`Date.prototype.getSeconds`). -/
def tsSeconds (t : Int) : Nat := ((t.ediv 1000).emod 60).toNat

/-- Civil date from a day count relative to 1970-01-01 (proleptic Gregorian);
the standard days-to-`(year, month, day)` conversion used to render the local
date parts of a timestamp. -/
def civilFromDays (z0 : Int) : Int × Nat × Nat :=
  let z := z0 + 719468
  let era := z.ediv 146097
  let doe := (z - era * 146097).toNat
  let yoe := (doe - doe / 1460 + doe / 36524 - doe / 146096) / 365
  let doy := doe - (365 * yoe + yoe / 4 - yoe / 100)
  let mp := (5 * doy + 2) / 153
  let d := doy - (153 * mp + 2) / 5 + 1
  let m := if mp < 10 then mp + 3 else mp - 9
  let y : Int := (yoe : Int) + era * 400 + (if m ≤ 2 then 1 else 0)
  (y, m, d)

/-- The helper `formatToLocalISO` of the source: `YYYY-MM-DDTHH:MM:SS`, naive local
wall-clock rendering with no offset suffix. -/
def formatToLocalISO (t : Int) : String :=
  let days := t.ediv 86400000
  let c := civilFromDays days
  toString c.1 ++ "-" ++ pad2 c.2.1 ++ "-" ++ pad2 c.2.2 ++ "T" ++
    pad2 (tsHours t) ++ ":" ++ pad2 (tsMinutes t) ++ ":" ++ pad2 (tsSeconds t)

/-- One entry of the generated notification schedule
(`{ task, notify_at, message }`). -/
structure ScheduleEntry where
  task : String
  notify_at : String
  message : String
deriving DecidableEq, Repr

/-- The default reminder offset (in ms before the deadline) chosen by the
`switch (task.type)` of `handleGenerateNotificationSchedule`:
Appointment → 60 min, Meeting → 90 min, Assignment → 30 min,
`Other` or unspecified → 15 min. -/
def defaultOffsetMs : Option TaskType → Int
  | some .Appointment => 3600000
  | some .Meeting => 5400000
  | some .Assignment => 1800000
  | _ => 900000

/-- The `capitalizedPriority` computation of the source:
uppercase the first character, keep the rest. -/
def capitalizedPriority (p : Priority) : String :=
  match (priorityString p).data with
  | [] => ""
  | c :: cs => String.mk (c.toUpper :: cs)

/-- The `baseMessage` template of `handleGenerateNotificationSchedule`. -/
def baseMessage (text : String) (deadline : Int) (p : Priority) : String :=
  "Reminder: \x27" ++ text ++ "\x27 is due at " ++
    pad2 (tsHours deadline) ++ ":" ++ pad2 (tsMinutes deadline) ++
    ". Priority: " ++ capitalizedPriority p

/-- The `notificationTimes` array built for one task: the custom notification
time if set, otherwise the type-based default offset from the deadline; a
high-priority task additionally gets `deadline − 24 h` when that instant is in
the future and not within 60 s of an already-selected candidate. -/
def rawNotificationTimes (now : Int) (deadline : Int) (t : Task) : List Int :=
  let times : List Int :=
    match t.customNotificationTime with
    | some c => [c]
    | none =>
      let defaultTime :=
        match t.type with
        | some TaskType.Appointment => subtractTime deadline 1 0
        | some TaskType.Meeting => subtractTime deadline 1 30
        | some TaskType.Assignment => subtractTime deadline 0 30
        | _ => subtractTime deadline 0 15
      [defaultTime]
  let oneDayBefore := subtractTime deadline 24 0
  if t.priority = Priority.high ∧ now < oneDayBefore ∧
      ¬ (times.any fun x => decide ((x - oneDayBefore).natAbs < 60000))
  then times ++ [oneDayBefore]
  else times

/-- The notification instants surviving the final `notifyAt > now` filter of
the `notificationTimes.forEach` loop: the future candidates for one task. -/
def candidateInstants (now : Int) (t : Task) : List Int :=
  (rawNotificationTimes now ((t.dueDate).getD 0) t).filter fun x => decide (now < x)

/-- The schedule entries contributed by one pending task (the body of the
`pendingTasks.forEach` loop): future candidates only, each rendered with the
task text, the local-ISO instant, and the base message. -/
def taskScheduleEntries (now : Int) (t : Task) : List ScheduleEntry :=
  let deadline := (t.dueDate).getD 0
  (candidateInstants now t).map
    fun x => ⟨t.text, formatToLocalISO x, baseMessage t.text deadline t.priority⟩

/-- The handler `handleGenerateNotificationSchedule`: apply the per-task computation to
every pending task that has a due date, flattening in task iteration order. -/
def handleGenerateNotificationSchedule (now : Int) (tasks : List Task) :
    List ScheduleEntry :=
  ((tasks.filter fun t => !t.isCompleted && t.dueDate.isSome).map
    (taskScheduleEntries now)).flatten

/-! ## ToolCallDispatcher — per-tool handlers (`handleCreateTask`,
`handleUpdateTask`, `handleScheduleReminder`, `handleDeleteTask`,
`handleAnalyzeProductivityPatterns`) -/

/-- Arguments of the `createTask` tool. -/
structure CreateArgs where
  text : String
  dueDate : Option Int := none
  priority : Option Priority := none
  category : Option String := none
  type : Option TaskType := none
  customNotificationTime : Option Int := none
deriving DecidableEq, Repr

/-- Arguments of the `updateTask` tool.  `newCustomNotificationTime` is doubly
optional: the outer layer models key presence (the source tests
`in`-presence test of the source), the inner layer its truthiness. -/
structure UpdateArgs where
  taskId : String
  newName : Option String := none
  newDueDate : Option Int := none
  newPriority : Option Priority := none
  newStatus : Option TaskStatus := none
  newCategory : Option String := none
  newType : Option TaskType := none
  newCustomNotificationTime : Option (Option Int) := none
deriving DecidableEq, Repr

/-- The literal string of a `newStatus` value. -/
def statusString : TaskStatus → String
  | .completed => "completed"
  | .pending => "pending"

/-- The literal string of a `newType` value. -/
def typeString : TaskType → String
  | .Appointment => "Appointment"
  | .Meeting => "Meeting"
  | .Assignment => "Assignment"
  | .Other => "Other"

/-- Diff step for `newName`: a truthy name differing from the original text
renames the task and records a change description. -/
def diffName (a : UpdateArgs) (t0 : Task) (s : Task × List String) :
    Task × List String :=
  match a.newName with
  | some n =>
    if n ≠ "" ∧ n ≠ t0.text then
      ({ s.1 with text := n },
       s.2 ++ ["Task \x27" ++ t0.text ++ "\x27 has been renamed to \x27" ++
         n ++ "\x27."])
    else s
  | none => s

/-- Diff step for `newDueDate`; `fmtMed` models the locale rendering
`toLocaleString` with medium date style and short time style. -/
def diffDue (fmtMed : Int → String) (a : UpdateArgs) (t0 : Task)
    (s : Task × List String) : Task × List String :=
  match a.newDueDate with
  | some d =>
    if some d ≠ t0.dueDate then
      ({ s.1 with dueDate := some d },
       s.2 ++ ["Deadline for \x27" ++ s.1.text ++ "\x27 has been changed to " ++
         fmtMed d ++ "."])
    else s
  | none => s

/-- Diff step for `newPriority`. -/
def diffPriority (a : UpdateArgs) (t0 : Task) (s : Task × List String) :
    Task × List String :=
  match a.newPriority with
  | some p =>
    if p ≠ t0.priority then
      ({ s.1 with priority := p },
       s.2 ++ ["Priority for \x27" ++ s.1.text ++ "\x27 has been changed to " ++
         priorityString p ++ "."])
    else s
  | none => s

/-- Diff step for `newCategory`. -/
def diffCategory (a : UpdateArgs) (t0 : Task) (s : Task × List String) :
    Task × List String :=
  match a.newCategory with
  | some c =>
    if c ≠ "" ∧ some c ≠ t0.category then
      ({ s.1 with category := some c },
       s.2 ++ ["Category for \x27" ++ s.1.text ++ "\x27 has been changed to " ++
         c ++ "."])
    else s
  | none => s

/-- Diff step for `newType`. -/
def diffType (a : UpdateArgs) (t0 : Task) (s : Task × List String) :
    Task × List String :=
  match a.newType with
  | some ty =>
    if some ty ≠ t0.type then
      ({ s.1 with type := some ty },
       s.2 ++ ["Type for \x27" ++ s.1.text ++ "\x27 has been changed to " ++
         typeString ty ++ "."])
    else s
  | none => s

/-- Diff step for `newCustomNotificationTime`: key presence alone triggers the
assignment and a change description — there is no comparison with the current
value.  `fmtFull` models the locale rendering `toLocaleString()`. -/
def diffCustom (fmtFull : Int → String) (a : UpdateArgs) (_t0 : Task)
    (s : Task × List String) : Task × List String :=
  match a.newCustomNotificationTime with
  | some v =>
    ({ s.1 with customNotificationTime := v },
     s.2 ++ [match v with
      | some x => "Custom notification for \x27" ++ s.1.text ++
          "\x27 has been set to " ++ fmtFull x ++ "."
      | none => "Custom notification for \x27" ++ s.1.text ++
          "\x27 has been removed."])
  | none => s

/-- Diff step for `newStatus`: a supplied status whose completion flag differs
from the original flips it and sets or clears `completedAt`. -/
def diffStatus (now : Int) (a : UpdateArgs) (t0 : Task)
    (s : Task × List String) : Task × List String :=
  match a.newStatus with
  | some st =>
    if decide (st = TaskStatus.completed) ≠ t0.isCompleted then
      ({ s.1 with isCompleted := decide (st = TaskStatus.completed),
                  completedAt :=
                    if st = TaskStatus.completed then some now else none },
       s.2 ++ ["Status for \x27" ++ s.1.text ++ "\x27 has been updated to " ++
         statusString st ++ "."])
    else s
  | none => s

/-- The diff phase of `handleUpdateTask`: thread the updated record through the
seven field checks in source order (name, due date, priority, category, type,
custom notification time, status), collecting one change description per
effective change.  Comparisons are against the original record `t0`, as in the
source; descriptions interpolate the current (possibly renamed) text. -/
def buildChanges (fmtMed fmtFull : Int → String) (now : Int) (t0 : Task)
    (a : UpdateArgs) : Task × List String :=
  diffStatus now a t0 (diffCustom fmtFull a t0 (diffType a t0 (diffCategory a t0
    (diffPriority a t0 (diffDue fmtMed a t0 (diffName a t0 (t0, [])))))))

/-- The unresolved-`taskId` response of `handleUpdateTask`. -/
def notFoundMessage : String :=
  "I could not find the specified task. Please check the name and try again."

/-- The trailing `**Task Details:**` block appended for non-due-date updates. -/
def taskDetailsBlock (fmtFull : Int → String) (t : Task) : String :=
  "\n**Task Details:** Name: " ++ t.text ++ ", Status: " ++
    (if t.isCompleted then "Completed" else "Pending") ++ ", Priority: " ++
    priorityString t.priority ++
    (match t.dueDate with
     | some d => ", Deadline: " ++ fmtFull d
     | none => "")

/-- The handler `handleUpdateTask`: resolve the task, diff, and answer.  The store write is
skipped when no change was detected; a supplied `newDueDate` switches the
response to the terse form without the details block. -/
def handleUpdateTask (fmtMed fmtFull : Int → String) (now : Int)
    (tasks : List Task) (a : UpdateArgs) : List Task × String :=
  match tasks.find? (fun t => decide (t.id = a.taskId)) with
  | none => (tasks, notFoundMessage)
  | some t0 =>
    let r := buildChanges fmtMed fmtFull now t0 a
    if r.2 = [] then
      (tasks, "No changes were needed for the task \"" ++ t0.text ++ "\".")
    else
      let tasks2 := tasks.map fun t => if t.id = a.taskId then r.1 else t
      if a.newDueDate.isSome then (tasks2, String.intercalate " " r.2)
      else (tasks2, String.intercalate " " r.2 ++ taskDetailsBlock fmtFull r.1)

/-- The handler `handleScheduleReminder`: append the reminder time to the
reminder list of the task (no deduplication) and return the task text, or
`none` if unresolved. -/
def handleScheduleReminder (tasks : List Task) (taskId : String)
    (reminderTime : Int) : List Task × Option String :=
  match tasks.find? (fun t => decide (t.id = taskId)) with
  | some t0 =>
    let updated := { t0 with reminders := some ((t0.reminders).getD [] ++ [reminderTime]) }
    (tasks.map fun t => if t.id = taskId then updated else t, some t0.text)
  | none => (tasks, none)

/-- The handler `handleDeleteTask`: remove the task and return its text, or `none`. -/
def handleDeleteTask (userName : String) (tasks : List Task) (taskId : String) :
    List Task × Option String :=
  if userName = "" then (tasks, none)
  else
    match tasks.find? (fun t => decide (t.id = taskId)) with
    | none => (tasks, none)
    | some t0 => (tasks.filter fun t => decide (t.id ≠ taskId), some t0.text)

/-- The handler `handleCreateTask`: insert a fresh task with id `task-<Date.now()>`,
default priority `medium`, default type `Other`, empty reminder list. -/
def handleCreateTask (userName : String) (now : Int) (tasks : List Task)
    (args : CreateArgs) : List Task :=
  if userName = "" then tasks
  else tasks ++ [{
    id := "task-" ++ toString now,
    text := args.text,
    isCompleted := false,
    dueDate := args.dueDate,
    priority := (args.priority).getD Priority.medium,
    userName := userName,
    reminders := some [],
    createdAt := now,
    completedAt := none,
    category := args.category,
    type := some ((args.type).getD TaskType.Other),
    customNotificationTime := args.customNotificationTime }]

/-- The handler `handleToggleTask`: flip completion and set/clear `completedAt`. -/
def handleToggleTask (now : Int) (taskId : String) (tasks : List Task) :
    List Task :=
  tasks.map fun t =>
    if t.id = taskId then
      { t with isCompleted := !t.isCompleted,
               completedAt := if !t.isCompleted then some now else none }
    else t

/-- The handler `handleAnalyzeProductivityPatterns`.  The external summarization
collaborator (§6) is not part of the repository core logic; its rendered
report is modelled as the input `collabOutput`.  Only the local short-circuit
for fewer than five tasks is code. -/
def handleAnalyzeProductivityPatterns (tasks : List Task)
    (collabOutput : String) : String :=
  if tasks.length < 5 then
    "I need a bit more history to analyze your productivity. Keep using TaskBuddy to manage at least 5 tasks, and I\x27ll be able to provide insights soon!"
  else collabOutput

/-! ## ToolCallDispatcher — turn processing (`handleSubmit`) -/

/-- The JS string `trim` method: strip whitespace from both ends. -/
def trimString (s : String) : String :=
  String.mk
    (((s.data.dropWhile Char.isWhitespace).reverse.dropWhile
      Char.isWhitespace).reverse)

/-- Does the first character list start with the pattern? -/
def charsStartWith : List Char → List Char → Bool
  | [], _ => true
  | _ :: _, [] => false
  | a :: as, b :: bs => decide (a = b) && charsStartWith as bs

/-- Does the character list contain the pattern as a contiguous segment? -/
def charsContain (pat : List Char) : List Char → Bool
  | [] => charsStartWith pat []
  | c :: cs => charsStartWith pat (c :: cs) || charsContain pat cs

/-- Substring occurrence test used to state presence or absence of the
`**Task Details:**` block in responses. -/
def strContains (s pat : String) : Bool := charsContain pat.data s.data

/-- Minimal JSON string escaping (backslash, quote, newline) as produced by
`JSON.stringify` on the strings occurring in this development. -/
def jsonEscape (s : String) : String :=
  ((s.replace "\\" "\\\\").replace "\"" "\\\"").replace "\n" "\\n"

/-- One schedule entry rendered as `JSON.stringify(…, null, 2)` renders it. -/
def scheduleEntryJson (e : ScheduleEntry) : String :=
  "  \x7b\n    \"task\": \"" ++ jsonEscape e.task ++
    "\",\n    \"notify_at\": \"" ++ jsonEscape e.notify_at ++
    "\",\n    \"message\": \"" ++ jsonEscape e.message ++ "\"\n  \x7d"

/-- The `JSON.stringify` rendering with two-space indent. -/
def scheduleJson : List ScheduleEntry → String
  | [] => "[]"
  | es => "[\n" ++ String.intercalate ",\n" (es.map scheduleEntryJson) ++ "\n]"

/-- The per-turn accumulator of `handleSubmit`: the task store plus one
result slot per tool kind, and the clock values successively observed by
`Date.now()` during the turn (one per tool invocation). -/
structure TurnState where
  tasks : List Task
  createdTasks : List CreateArgs := []
  scheduledReminders : List String := []
  taskDeletedMessage : String := ""
  analysisMessage : String := ""
  updateMessage : String := ""
  scheduleMessage : String := ""
  clock : List Int := []
deriving DecidableEq, Repr

/-- A structured tool invocation of one conversational turn. -/
inductive ToolCall where
  | createTask (args : CreateArgs)
  | updateTask (args : UpdateArgs)
  | scheduleReminder (taskId : String) (reminderTime : Int)
  | deleteTask (taskId : String)
  | analyzeProductivityPatterns
  | generateNotificationSchedule
deriving DecidableEq, Repr

/-- One iteration of the `for (const func of functionCalls)` loop of
`handleSubmit`: dispatch a single tool invocation, mutating the store and the
per-kind result slots.  Note that the update/deletion/analysis/schedule slots
are assignments, so a later invocation of the same kind overwrites. -/
def applyCall (userName collabOutput : String) (fmtMed fmtFull : Int → String)
    (st : TurnState) (c : ToolCall) : TurnState :=
  let now := st.clock.headD 0
  let st1 := { st with clock := st.clock.tail }
  match c with
  | .createTask args =>
    { st1 with tasks := handleCreateTask userName now st1.tasks args,
               createdTasks := st1.createdTasks ++ [args] }
  | .updateTask args =>
    let r := handleUpdateTask fmtMed fmtFull now st1.tasks args
    { st1 with tasks := r.1, updateMessage := r.2 }
  | .scheduleReminder taskId reminderTime =>
    let r := handleScheduleReminder st1.tasks taskId reminderTime
    { st1 with tasks := r.1,
               scheduledReminders :=
                 match r.2 with
                 | some txt => st1.scheduledReminders ++ [txt]
                 | none => st1.scheduledReminders }
  | .deleteTask taskId =>
    let r := handleDeleteTask userName st1.tasks taskId
    { st1 with tasks := r.1,
               taskDeletedMessage :=
                 match r.2 with
                 | some txt => "Alright, I\x27ve removed the task: \"" ++ txt ++ "\"."
                 | none => "Sorry, I couldn\x27t find that task." }
  | .analyzeProductivityPatterns =>
    { st1 with analysisMessage :=
        handleAnalyzeProductivityPatterns st1.tasks collabOutput }
  | .generateNotificationSchedule =>
    let sched := handleGenerateNotificationSchedule now st1.tasks
    { st1 with scheduleMessage :=
        if sched.length > 0 then
          "Sure, here is the generated notification schedule based on your tasks:\n\n```json\n" ++
            scheduleJson sched ++ "\n```"
        else
          "I couldn\x27t find any pending tasks with future deadlines to generate a schedule for." }

/-- Sequential processing of the full batch of a turn, in supplied order. -/
def processCalls (userName collabOutput : String) (fmtMed fmtFull : Int → String)
    (st : TurnState) : List ToolCall → TurnState
  | [] => st
  | c :: cs =>
    processCalls userName collabOutput fmtMed fmtFull
      (applyCall userName collabOutput fmtMed fmtFull st c) cs

/-- The creation/reminder confirmation built first by `handleSubmit`:
single-task vs "all N tasks" phrasing, optionally combined with the
scheduled-reminder list. -/
def creationReminderConfirmation (st : TurnState) : String :=
  let created :=
    match st.createdTasks with
    | [] => ""
    | [a] => "OK, I\x27ve added \"" ++ a.text ++ "\" to your list."
    | _ => "Got it. I\x27ve added all " ++ toString st.createdTasks.length ++
        " tasks to your list."
  if st.scheduledReminders.length > 0 then
    let reminderConf := "I\x27ll remind you about: \"" ++
      String.intercalate "\", \"" st.scheduledReminders ++ "\"."
    if created ≠ "" then created ++ " " ++ reminderConf else "OK. " ++ reminderConf
  else created

/-- The overwrite chain of `handleSubmit`: the creation/reminder confirmation
is successively replaced by the deletion, update, analysis and schedule
messages whenever non-empty. -/
def resolveConfirmation (st : TurnState) : String :=
  let m1 := creationReminderConfirmation st
  let m2 := if st.taskDeletedMessage ≠ "" then st.taskDeletedMessage else m1
  let m3 := if st.updateMessage ≠ "" then st.updateMessage else m2
  let m4 := if st.analysisMessage ≠ "" then st.analysisMessage else m3
  if st.scheduleMessage ≠ "" then st.scheduleMessage else m4

/-- The confirmation resolution written as an explicit highest-wins precedence
chain (the orientation the code in fact implements): notification-schedule
report over productivity-analysis report over update-confirmation over
deletion-confirmation over the combined creation/reminder confirmation.
Stated separately from `resolveConfirmation` to compare the assignment chain
of the source against a direct precedence reading. -/
def confirmationByPrecedence (st : TurnState) : String :=
  if st.scheduleMessage ≠ "" then st.scheduleMessage
  else if st.analysisMessage ≠ "" then st.analysisMessage
  else if st.updateMessage ≠ "" then st.updateMessage
  else if st.taskDeletedMessage ≠ "" then st.taskDeletedMessage
  else creationReminderConfirmation st

/-- Final assistant message of a turn: the trimmed streamed model text when
non-empty, else the resolved confirmation when non-empty, else nothing. -/
def finalAssistantMessage (aiResponseText : String) (st : TurnState) :
    Option String :=
  if trimString aiResponseText ≠ "" then some (trimString aiResponseText)
  else if resolveConfirmation st ≠ "" then some (resolveConfirmation st)
  else none

/-! ## ReminderScheduler — `checkReminders` and the surrounding state -/

/-- The poll interval / check window, `CHECK_WINDOW_MS = 30 * 1000`. -/
def CHECK_WINDOW_MS : Int := 30 * 1000

/-- The scheduler-relevant mutable state of the application: the task store,
the snoozed-task id set, the triggered-reminder composite-key set, and the
single active notification slot (`notificationTask`). -/
structure SchedulerState where
  tasks : List Task
  snoozedTasks : List String := []
  triggeredReminders : List (String × Int) := []
  notificationTask : Option Task := none
deriving DecidableEq, Repr

/-- The firing condition of `checkReminders` for one reminder instant:
`reminderTime <= now && reminderTime > now - CHECK_WINDOW_MS
 && !triggeredReminders.has(reminderId)`. -/
def reminderFires (triggered : List (String × Int)) (now : Int) (taskId : String)
    (r : Int) : Bool :=
  decide (r ≤ now) && decide (now - CHECK_WINDOW_MS < r) &&
    !(decide ((taskId, r) ∈ triggered))

/-- The inner loop of `checkReminders` for one task: skip completed, snoozed
and reminder-less tasks, otherwise the first reminder instant that fires. -/
def taskDueReminder (triggered : List (String × Int)) (snoozed : List String)
    (now : Int) (t : Task) : Option Int :=
  if t.isCompleted || decide (t.id ∈ snoozed) || t.reminders.isNone then none
  else ((t.reminders).getD []).find? (reminderFires triggered now t.id)

/-- The outer loop of `checkReminders`: scan tasks in store order, stop at the
first task with a due reminder. -/
def findDueReminder (triggered : List (String × Int)) (snoozed : List String)
    (now : Int) : List Task → Option (Task × Int)
  | [] => none
  | t :: ts =>
    match taskDueReminder triggered snoozed now t with
    | some r => some (t, r)
    | none => findDueReminder triggered snoozed now ts

/-- One poll tick (`checkReminders`): do nothing while a notification is
active; otherwise fire the first due reminder, record its composite key in the
triggered set, and surface its task as the active notification. -/
def checkReminders (now : Int) (s : SchedulerState) : SchedulerState :=
  if s.notificationTask.isSome then s
  else
    match findDueReminder s.triggeredReminders s.snoozedTasks now s.tasks with
    | none => s
    | some (t, r) =>
      { s with triggeredReminders := (t.id, r) :: s.triggeredReminders,
               notificationTask := some t }

/-- The discrete events that touch the scheduler state: poll ticks, toast
actions (`onClose`, snooze begin and end, mark-as-done) and the store
mutations of the dispatcher that are relevant to reminders. -/
inductive SchedEvent where
  | tick (now : Int)
  | dismiss
  | snooze (taskId : String)
  | snoozeExpire (taskId : String)
  | markDone (taskId : String) (now : Int)
  | scheduleRem (taskId : String) (reminderTime : Int)
  | create (userName : String) (args : CreateArgs) (now : Int)
  | delete (userName : String) (taskId : String)
deriving DecidableEq, Repr

/-- Effect of one event on the scheduler state. -/
def step (e : SchedEvent) (s : SchedulerState) : SchedulerState :=
  match e with
  | .tick now => checkReminders now s
  | .dismiss => { s with notificationTask := none }
  | .snooze taskId =>
    { s with snoozedTasks := taskId :: s.snoozedTasks, notificationTask := none }
  | .snoozeExpire taskId =>
    { s with snoozedTasks := s.snoozedTasks.filter fun x => decide (x ≠ taskId) }
  | .markDone taskId now =>
    { s with tasks := handleToggleTask now taskId s.tasks, notificationTask := none }
  | .scheduleRem taskId reminderTime =>
    { s with tasks := (handleScheduleReminder s.tasks taskId reminderTime).1 }
  | .create userName args now =>
    { s with tasks := handleCreateTask userName now s.tasks args }
  | .delete userName taskId =>
    { s with tasks := (handleDeleteTask userName s.tasks taskId).1 }

/-- Run a sequence of events. -/
def run (s : SchedulerState) : List SchedEvent → SchedulerState
  | [] => s
  | e :: es => run (step e s) es

/-- A reminder composite key `k` fires at event `e` from state `s` when the
event moves it into the triggered set. -/
def firedAt (s : SchedulerState) (e : SchedEvent) (k : String × Int) : Prop :=
  k ∉ s.triggeredReminders ∧ k ∈ (step e s).triggeredReminders

instance (s : SchedulerState) (e : SchedEvent) (k : String × Int) :
    Decidable (firedAt s e k) := by
  unfold firedAt
  infer_instance

/-! ## Concrete sample data used in the concrete evaluations -/

/-- Sample data: a medium-priority Assignment due 2024-07-21T19:00:00
(naive local epoch milliseconds). -/
def exampleAssignment : Task :=
  { id := "task-1", text := "Physics assignment", isCompleted := false,
    dueDate := some 1721588400000, priority := Priority.medium,
    userName := "alice", reminders := some [], createdAt := 1721580000000,
    completedAt := none, category := none, type := some TaskType.Assignment,
    customNotificationTime := none }

/-- Sample data: a high-priority task due 25 hours after time 0. -/
def highDue25h : Task :=
  { id := "task-2", text := "Launch prep", isCompleted := false,
    dueDate := some 90000000, priority := Priority.high, userName := "alice",
    reminders := some [], createdAt := 0, completedAt := none, category := none,
    type := some TaskType.Assignment, customNotificationTime := none }

/-- Sample data: a high-priority task with a custom notification time set. -/
def customHighTask : Task :=
  { id := "task-3", text := "Board review", isCompleted := false,
    dueDate := some 90000000, priority := Priority.high, userName := "alice",
    reminders := some [], createdAt := 0, completedAt := none, category := none,
    type := some TaskType.Other, customNotificationTime := some 600000 }

/-- Sample data: a medium-priority task with a custom notification time set. -/
def customMedTask : Task :=
  { id := "task-4", text := "Dentist", isCompleted := false,
    dueDate := some 90000000, priority := Priority.medium, userName := "alice",
    reminders := some [], createdAt := 0, completedAt := none, category := none,
    type := some TaskType.Other, customNotificationTime := some 500 }

/-- Sample data: a task with a single reminder instant at 1000. -/
def remTask1 : Task :=
  { id := "t1", text := "Water plants", isCompleted := false, dueDate := some 2000,
    priority := Priority.medium, userName := "alice", reminders := some [1000],
    createdAt := 0, completedAt := none, category := none,
    type := some TaskType.Other, customNotificationTime := none }

/-- Sample data: initial scheduler state holding `remTask1`. -/
def schedS0 : SchedulerState := { tasks := [remTask1] }

/-- Sample data: a completed copy of `remTask1` placed before it in the store. -/
def remTaskDone : Task := { remTask1 with id := "t0", isCompleted := true }

/-- Sample data: scheduler state with a completed task before `remTask1`. -/
def schedS9 : SchedulerState := { tasks := [remTaskDone, remTask1] }

/-- Sample data: `remTask1` with the same reminder instant scheduled twice. -/
def dupRemTask : Task := { remTask1 with reminders := some [100000, 100000] }

/-- Sample data: scheduler state holding the duplicated-reminder task. -/
def schedS7 : SchedulerState := { tasks := [dupRemTask] }

/-- A concrete locale formatter used to instantiate the presentation
parameters in concrete evaluations. -/
def fmtNum : Int → String := fun x => toString x

/-- Sample data: a plain pending task. -/
def taskA : Task :=
  { id := "task-a", text := "Alpha", isCompleted := false, dueDate := none,
    priority := Priority.medium, userName := "alice", reminders := some [],
    createdAt := 0, completedAt := none, category := none,
    type := some TaskType.Other, customNotificationTime := none }

/-- Sample data: a second plain pending task. -/
def taskB : Task := { taskA with id := "task-b", text := "Beta" }

/-- Sample data: a pending task with a due date, for update claims. -/
def c4Task : Task :=
  { taskA with id := "task-c", text := "Report", dueDate := some 1000 }

/-- Sample data: a pending task with a custom notification time set. -/
def c8Task : Task :=
  { taskA with
    id := "task-d", text := "Standup", customNotificationTime := some 700 }

/-- All supplied non-custom update fields are absent, falsy, or equal to the
current value of the record. -/
def argsMatchCurrent (t0 : Task) (a : UpdateArgs) : Prop :=
  (a.newName = none ∨ a.newName = some "" ∨ a.newName = some t0.text) ∧
  (a.newDueDate = none ∨ a.newDueDate = t0.dueDate) ∧
  (a.newPriority = none ∨ a.newPriority = some t0.priority) ∧
  (a.newCategory = none ∨ a.newCategory = some "" ∨
    a.newCategory = t0.category) ∧
  (a.newType = none ∨ a.newType = t0.type) ∧
  (a.newStatus = none ∨ a.newStatus =
    some (if t0.isCompleted then TaskStatus.completed else TaskStatus.pending))

instance (t0 : Task) (a : UpdateArgs) : Decidable (argsMatchCurrent t0 a) := by
  unfold argsMatchCurrent
  infer_instance

/-- Sample data: a turn starting from a store with `taskA` and `taskB`. -/
def c2TurnStart : TurnState := { tasks := [taskA, taskB], clock := [10, 20] }

/-- Sample data: the turn state after a successful deletion followed by a
successful priority update in the same batch. -/
def c2TurnEnd : TurnState :=
  processCalls "alice" "" fmtNum fmtNum c2TurnStart
    [ToolCall.deleteTask "task-a",
     ToolCall.updateTask { taskId := "task-b", newPriority := some Priority.high }]

/-! ## Helper lemmas on the notification-time computation -/

/-- Closed form of `rawNotificationTimes`: the base candidate (custom time or
type-default offset) alone, or followed by `deadline − 24 h` exactly when the
task is high-priority, that instant is in the future and it is at least 60 s
away from the base candidate. -/
theorem rawNotificationTimes_eq (now deadline : Int) (t : Task) :
    rawNotificationTimes now deadline t =
      (let first :=
        match t.customNotificationTime with
        | some c => c
        | none => deadline - defaultOffsetMs t.type
       let oneDayBefore := deadline - 86400000
       if t.priority = Priority.high ∧ now < oneDayBefore ∧
           ¬ (first - oneDayBefore).natAbs < 60000
       then [first, oneDayBefore] else [first]) := by
  unfold rawNotificationTimes subtractTime
  cases hc : t.customNotificationTime with
  | some c => norm_num [hc]
  | none =>
    cases hty : t.type with
    | none => norm_num [defaultOffsetMs, subtractTime]
    | some ty => cases ty <;> norm_num [defaultOffsetMs, subtractTime]

/-- Every surviving candidate instant is strictly in the future. -/
theorem candidateInstants_future {now : Int} {t : Task} {x : Int}
    (h : x ∈ candidateInstants now t) : now < x := by
  unfold candidateInstants at h
  have := List.of_mem_filter h
  simpa using this

/-- Claim C5: for every task with no custom notification time, the default
notification candidate is derived from the deadline by type
(Appointment − 60 min, Meeting − 90 min, Assignment − 30 min, Other or
unspecified − 15 min); and the medium-priority Assignment due
2024-07-21T19:00:00, evaluated at now = 2024-07-21T18:00:00, yields exactly
one schedule entry at 2024-07-21T18:30:00 with the message
"Reminder: \x27Physics assignment\x27 is due at 19:00. Priority: Medium". -/
theorem c5_default_offsets_and_example :
    (∀ (now d : Int) (t : Task), t.isCompleted = false → t.dueDate = some d →
      t.customNotificationTime = none →
      (rawNotificationTimes now d t).head? = some (d - defaultOffsetMs t.type)) ∧
    handleGenerateNotificationSchedule 1721584800000 [exampleAssignment] =
      [⟨"Physics assignment", "2024-07-21T18:30:00",
        "Reminder: \x27Physics assignment\x27 is due at 19:00. Priority: Medium"⟩] := by
  constructor
  · intro now d t _ _ hcust
    rw [rawNotificationTimes_eq]
    simp only [hcust]
    split <;> rfl
  · decide

/-- Witness for C5: the general part evaluated on the example task. -/
theorem c5_witness :
    exampleAssignment.isCompleted = false ∧
    exampleAssignment.dueDate = some 1721588400000 ∧
    exampleAssignment.customNotificationTime = none ∧
    (rawNotificationTimes 1721584800000 1721588400000 exampleAssignment).head? =
      some (1721588400000 - defaultOffsetMs exampleAssignment.type) :=
  ⟨rfl, rfl, rfl, c5_default_offsets_and_example.1 1721584800000 1721588400000
    exampleAssignment rfl rfl rfl⟩

/-- Claim C6: for a high-priority task with deadline `d`, a second candidate at
`d − 24 h` is added, suppressed when within 60 seconds of the already-selected
candidate; every candidate not strictly later than `now` is dropped; a
high-priority task due 25 hours from now yields two candidates. -/
theorem c6_high_priority_day_before :
    (∀ (now d : Int) (t : Task), t.dueDate = some d →
      rawNotificationTimes now d t =
        (let first :=
          match t.customNotificationTime with
          | some c => c
          | none => d - defaultOffsetMs t.type
         if t.priority = Priority.high ∧ now < d - 86400000 ∧
             ¬ (first - (d - 86400000)).natAbs < 60000
         then [first, d - 86400000] else [first])) ∧
    (∀ (now : Int) (t : Task) (x : Int), x ∈ candidateInstants now t → now < x) ∧
    candidateInstants 0 highDue25h = [88200000, 3600000] := by
  refine ⟨?_, ?_, ?_⟩
  · intro now d t _
    exact rawNotificationTimes_eq now d t
  · intro now t x h
    exact candidateInstants_future h
  · decide

/-- Witness for C6: the characterization evaluated on the 25-hours-out task. -/
theorem c6_witness :
    highDue25h.dueDate = some 90000000 ∧
    rawNotificationTimes 0 90000000 highDue25h = [88200000, 3600000] := by
  refine ⟨rfl, ?_⟩
  have h := c6_high_priority_day_before.1 0 90000000 highDue25h rfl
  rw [h]
  decide

/-- Claim C3, counterexample: a high-priority task whose custom notification time
is the future instant 600000 yields two candidates — the custom one is not the
sole candidate, contradicting "regardless of the other fields". -/
theorem c3_counterexample :
    customHighTask.customNotificationTime = some 600000 ∧ (0 : Int) < 600000 ∧
    candidateInstants 0 customHighTask = [600000, 3600000] := by decide

/-- Claim C3, amended: when `customNotificationTime = X` it is the sole base
candidate: for a non-high-priority task the computation returns exactly {X} if
X is strictly in the future and {} otherwise; for a high-priority task the
additional `dueDate − 24 h` candidate is still appended when it is in the
future and at least 60 s away from X. -/
theorem c3_custom_time_behavior :
    (∀ (now c : Int) (t : Task), t.customNotificationTime = some c →
      t.priority ≠ Priority.high →
      candidateInstants now t = if now < c then [c] else []) ∧
    (∀ (now c d : Int) (t : Task), t.customNotificationTime = some c →
      t.dueDate = some d → t.priority = Priority.high → now < d - 86400000 →
      60000 ≤ (c - (d - 86400000)).natAbs →
      candidateInstants now t =
        (if now < c then [c] else []) ++ [d - 86400000]) := by
  constructor
  · intro now c t hcust hp
    unfold candidateInstants
    rw [rawNotificationTimes_eq]
    simp only [hcust, hp, false_and, if_false, if_neg]
    by_cases hnc : now < c <;> simp [List.filter, hnc]
  · intro now c d t hcust hdue hp hfut hfar
    unfold candidateInstants
    rw [hdue]
    simp only [Option.getD_some]
    rw [rawNotificationTimes_eq]
    simp only [hcust]
    rw [if_pos ⟨hp, hfut, by omega⟩]
    by_cases hnc : now < c <;> simp [List.filter, hnc, hfut]

/-- Witness for C3: the amended non-high case evaluated on a concrete task. -/
theorem c3_witness :
    customMedTask.customNotificationTime = some 500 ∧
    customMedTask.priority ≠ Priority.high ∧
    candidateInstants 0 customMedTask = [500] := by
  refine ⟨rfl, by decide, ?_⟩
  have h := c3_custom_time_behavior.1 0 500 customMedTask rfl (by decide)
  rw [h]
  decide

/-! ## Helper lemmas on the scheduler -/

/-- A reminder found by the per-task scan satisfies the firing condition. -/
theorem taskDueReminder_fires {triggered : List (String × Int)}
    {snoozed : List String} {now : Int} {t : Task} {r : Int}
    (h : taskDueReminder triggered snoozed now t = some r) :
    reminderFires triggered now t.id r = true := by
  unfold taskDueReminder at h
  split at h
  · exact absurd h (by simp)
  · exact List.find?_some h

/-- A pair found by the store scan satisfies the firing condition. -/
theorem findDueReminder_fires {triggered : List (String × Int)}
    {snoozed : List String} {now : Int} {ts : List Task} {t : Task} {r : Int}
    (h : findDueReminder triggered snoozed now ts = some (t, r)) :
    reminderFires triggered now t.id r = true := by
  induction ts with
  | nil => simp [findDueReminder] at h
  | cons u us ih =>
    rw [findDueReminder] at h
    cases hu : taskDueReminder triggered snoozed now u with
    | some r0 =>
      rw [hu] at h
      cases h
      exact taskDueReminder_fires hu
    | none =>
      rw [hu] at h
      exact ih h

/-- A poll tick never removes a key from the triggered set. -/
theorem checkReminders_triggered_mono {k : String × Int} (now : Int)
    (s : SchedulerState) (h : k ∈ s.triggeredReminders) :
    k ∈ (checkReminders now s).triggeredReminders := by
  unfold checkReminders
  split
  · exact h
  · split
    · exact h
    · exact List.mem_cons_of_mem _ h

/-- No event removes a key from the triggered set. -/
theorem step_triggered_mono {k : String × Int} (e : SchedEvent)
    (s : SchedulerState) (h : k ∈ s.triggeredReminders) :
    k ∈ (step e s).triggeredReminders := by
  cases e
  case tick now => exact checkReminders_triggered_mono now s h
  all_goals exact h

/-- No event sequence removes a key from the triggered set. -/
theorem run_triggered_mono {k : String × Int} (es : List SchedEvent)
    (s : SchedulerState) (h : k ∈ s.triggeredReminders) :
    k ∈ (run s es).triggeredReminders := by
  induction es generalizing s with
  | nil => exact h
  | cons e es ih => exact ih _ (step_triggered_mono e s h)

/-- A key fires only at a poll tick, and only when its instant lies in the
half-open window `(now − CHECK_WINDOW_MS, now]`. -/
theorem firedAt_tick_window {k : String × Int} {s : SchedulerState}
    {e : SchedEvent} (h : firedAt s e k) :
    ∃ now, e = SchedEvent.tick now ∧ k.2 ≤ now ∧ now - CHECK_WINDOW_MS < k.2 := by
  obtain ⟨hpre, hpost⟩ := h
  cases e
  case tick now =>
    refine ⟨now, rfl, ?_⟩
    by_cases ha : s.notificationTask.isSome
    · exact absurd (by simpa [step, checkReminders, ha] using hpost) hpre
    · cases hf : findDueReminder s.triggeredReminders s.snoozedTasks now s.tasks with
      | none =>
        exact absurd (by simpa [step, checkReminders, ha, hf] using hpost) hpre
      | some p =>
        obtain ⟨t, r⟩ := p
        have hk : k = (t.id, r) := by
          have hm := hpost
          simp only [step, checkReminders, ha, Bool.false_eq_true, if_neg,
            if_false, hf, List.mem_cons] at hm
          rcases hm with h1 | h1
          · exact h1
          · exact absurd h1 hpre
        have hfire := findDueReminder_fires hf
        unfold reminderFires at hfire
        simp only [Bool.and_eq_true, decide_eq_true_eq] at hfire
        subst hk
        exact ⟨hfire.1.1, hfire.1.2⟩
  all_goals exact absurd hpost hpre

/-- Once a key has fired, it never fires again at any later event. -/
theorem firedAt_unique {k : String × Int} {s0 : SchedulerState}
    {l1 : List SchedEvent} {e1 : SchedEvent} {l2 : List SchedEvent}
    {e2 : SchedEvent} (h1 : firedAt (run s0 l1) e1 k)
    (h2 : firedAt (run (step e1 (run s0 l1)) l2) e2 k) : False :=
  h2.1 (run_triggered_mono l2 _ h1.2)

/-- The store scan finds the first task (in store order) with a due reminder. -/
theorem findDueReminder_first {triggered : List (String × Int)}
    {snoozed : List String} {now : Int} {pre : List Task} {t : Task} {r : Int}
    {post : List Task}
    (hpre : ∀ u ∈ pre, taskDueReminder triggered snoozed now u = none)
    (ht : taskDueReminder triggered snoozed now t = some r) :
    findDueReminder triggered snoozed now (pre ++ t :: post) = some (t, r) := by
  induction pre with
  | nil => simp [findDueReminder, ht]
  | cons u us ih =>
    have hu := hpre u (List.mem_cons_self u us)
    rw [List.cons_append, findDueReminder, hu]
    exact ih fun v hv => hpre v (List.mem_cons_of_mem u hv)

/-- Claim C1: across any sequence of events, a reminder composite key fires at
most once (the key enters the triggered set on first firing and is checked
before firing), and it fires only at a poll tick whose time `now` satisfies
`now − window < instant ≤ now` where the window is the 30-second poll
interval — never before the instant, never more than one window after it. -/
theorem c1_reminder_fires_once_within_window :
    ∀ (k : String × Int),
      (∀ (s : SchedulerState) (e : SchedEvent), firedAt s e k →
        ∃ now, e = SchedEvent.tick now ∧ k.2 ≤ now ∧
          now - CHECK_WINDOW_MS < k.2) ∧
      (∀ (s0 : SchedulerState) (l1 : List SchedEvent) (e1 : SchedEvent)
         (l2 : List SchedEvent) (e2 : SchedEvent),
        firedAt (run s0 l1) e1 k →
        ¬ firedAt (run (step e1 (run s0 l1)) l2) e2 k) :=
  fun _ => ⟨fun _ _ h => firedAt_tick_window h,
    fun _ _ _ _ _ h1 h2 => firedAt_unique h1 h2⟩

/-- Witness for C1: a concrete firing at tick 1000, which cannot re-fire at a
later tick still inside the window of the same instant. -/
theorem c1_witness :
    firedAt schedS0 (SchedEvent.tick 1000) ("t1", 1000) ∧
    ¬ firedAt (run (step (SchedEvent.tick 1000) (run schedS0 []))
        [SchedEvent.dismiss]) (SchedEvent.tick 1010) ("t1", 1000) :=
  ⟨by decide, (c1_reminder_fires_once_within_window ("t1", 1000)).2
      schedS0 [] (SchedEvent.tick 1000) [SchedEvent.dismiss]
      (SchedEvent.tick 1010) (by decide)⟩

/-- Claim C9: at most one active notification at a time: while one is active, a
poll tick is a no-op (nothing scans, nothing fires); and in one tick the first
matching task/reminder pair in scan order becomes the active notification,
its key being the only addition to the triggered set. -/
theorem c9_single_active_notification :
    ∀ (s : SchedulerState) (now : Int),
      (s.notificationTask.isSome → checkReminders now s = s) ∧
      (∀ (pre : List Task) (t : Task) (r : Int) (post : List Task),
        s.notificationTask = none →
        s.tasks = pre ++ t :: post →
        (∀ u ∈ pre,
          taskDueReminder s.triggeredReminders s.snoozedTasks now u = none) →
        taskDueReminder s.triggeredReminders s.snoozedTasks now t = some r →
        (checkReminders now s).notificationTask = some t ∧
        (checkReminders now s).triggeredReminders =
          (t.id, r) :: s.triggeredReminders ∧
        (checkReminders now s).tasks = s.tasks) := by
  intro s now
  constructor
  · intro h
    unfold checkReminders
    rw [if_pos h]
  · intro pre t r post hactive htasks hpre ht
    have hfind : findDueReminder s.triggeredReminders s.snoozedTasks now s.tasks
        = some (t, r) := by
      rw [htasks]
      exact findDueReminder_first hpre ht
    unfold checkReminders
    rw [hactive]
    simp [hfind]

/-- Witness for C9: the completed first task is skipped; the second task
becomes the active notification and only its key is recorded. -/
theorem c9_witness :
    (schedS9.notificationTask = none ∧
     schedS9.tasks = [remTaskDone] ++ remTask1 :: [] ∧
     (∀ u ∈ [remTaskDone],
       taskDueReminder schedS9.triggeredReminders schedS9.snoozedTasks 1000 u
         = none) ∧
     taskDueReminder schedS9.triggeredReminders schedS9.snoozedTasks 1000
       remTask1 = some 1000) ∧
    (checkReminders 1000 schedS9).notificationTask = some remTask1 ∧
    (checkReminders 1000 schedS9).triggeredReminders = [("t1", 1000)] ∧
    (checkReminders 1000 schedS9).tasks = schedS9.tasks := by
  refine ⟨⟨by decide, by decide, by decide, by decide⟩, ?_⟩
  have h := (c9_single_active_notification schedS9 1000).2 [remTaskDone]
    remTask1 1000 [] (by decide) (by decide) (by decide) (by decide)
  exact ⟨h.1, h.2.1, h.2.2⟩

/-- Claim C7, counterexample: with two identical reminder entries on one task,
the first tick fires one of them; after the toast is dismissed, a second tick
still inside the window of that same instant fires nothing: both duplicate
entries map to the same composite key, so they do not each fire once. -/
theorem c7_counterexample :
    (step (SchedEvent.tick 100000) schedS7).triggeredReminders =
      [("t1", 100000)] ∧
    step (SchedEvent.tick 110000)
        (step SchedEvent.dismiss (step (SchedEvent.tick 100000) schedS7)) =
      step SchedEvent.dismiss (step (SchedEvent.tick 100000) schedS7) := by
  decide

/-- Claim C7, amended: reminder scheduling is append-only with no
deduplication: scheduling an already-present timestamp appends another copy
(the multiplicity increases by one).  However, duplicate entries share one
composite key, so across any event sequence at most one firing ever occurs
for a given (task id, timestamp) pair — the duplicates do not each fire. -/
theorem c7_duplicate_reminders :
    (∀ (tasks : List Task) (taskId : String) (r : Int) (t0 : Task),
      tasks.find? (fun t => decide (t.id = taskId)) = some t0 →
      r ∈ (t0.reminders).getD [] →
      (handleScheduleReminder tasks taskId r).1 =
        tasks.map (fun t => if t.id = taskId then
          { t0 with reminders := some ((t0.reminders).getD [] ++ [r]) } else t) ∧
      ((t0.reminders).getD [] ++ [r]).count r =
        ((t0.reminders).getD []).count r + 1) ∧
    (∀ (k : String × Int) (s0 : SchedulerState) (l1 : List SchedEvent)
       (e1 : SchedEvent) (l2 : List SchedEvent) (e2 : SchedEvent),
      firedAt (run s0 l1) e1 k →
      ¬ firedAt (run (step e1 (run s0 l1)) l2) e2 k) := by
  constructor
  · intro tasks taskId r t0 hfind _
    constructor
    · unfold handleScheduleReminder
      rw [hfind]
    · simp
  · intro k s0 l1 e1 l2 e2 h1 h2
    exact firedAt_unique h1 h2

/-- Witness for C7: scheduling instant 100000 on a task that already holds it
twice appends a third copy. -/
theorem c7_witness :
    ([dupRemTask].find? (fun t => decide (t.id = "t1")) = some dupRemTask ∧
      (100000 : Int) ∈ (dupRemTask.reminders).getD []) ∧
    (handleScheduleReminder [dupRemTask] "t1" 100000).1 =
      [{ dupRemTask with reminders := some [100000, 100000, 100000] }] := by
  refine ⟨⟨by decide, by decide⟩, ?_⟩
  have h := (c7_duplicate_reminders.1 [dupRemTask] "t1" 100000 dupRemTask
    (by decide) (by decide)).1
  rw [h]
  decide

/-! ## Helper lemmas on the update diff and the dispatcher -/

/-- An absent, falsy or unchanged `newName` leaves the diff unchanged. -/
theorem diffName_id {a : UpdateArgs} {t0 : Task} {s : Task × List String}
    (h : a.newName = none ∨ a.newName = some "" ∨ a.newName = some t0.text) :
    diffName a t0 s = s := by
  rcases h with h | h | h <;> simp [diffName, h]

/-- An absent or unchanged `newDueDate` leaves the diff unchanged. -/
theorem diffDue_id {fmtMed : Int → String} {a : UpdateArgs} {t0 : Task}
    {s : Task × List String}
    (h : a.newDueDate = none ∨ a.newDueDate = t0.dueDate) :
    diffDue fmtMed a t0 s = s := by
  cases hd : a.newDueDate with
  | none => simp [diffDue, hd]
  | some d =>
    rcases h with h | h
    · simp [h] at hd
    · rw [hd] at h
      simp [diffDue, hd, ← h]

/-- An absent or unchanged `newPriority` leaves the diff unchanged. -/
theorem diffPriority_id {a : UpdateArgs} {t0 : Task} {s : Task × List String}
    (h : a.newPriority = none ∨ a.newPriority = some t0.priority) :
    diffPriority a t0 s = s := by
  rcases h with h | h <;> simp [diffPriority, h]

/-- An absent, falsy or unchanged `newCategory` leaves the diff unchanged. -/
theorem diffCategory_id {a : UpdateArgs} {t0 : Task} {s : Task × List String}
    (h : a.newCategory = none ∨ a.newCategory = some "" ∨
      a.newCategory = t0.category) :
    diffCategory a t0 s = s := by
  cases hc : a.newCategory with
  | none => simp [diffCategory, hc]
  | some c =>
    rcases h with h | h | h
    · simp [h] at hc
    · rw [hc] at h
      cases h
      simp [diffCategory, hc]
    · rw [hc] at h
      simp [diffCategory, hc, ← h]

/-- An absent or unchanged `newType` leaves the diff unchanged. -/
theorem diffType_id {a : UpdateArgs} {t0 : Task} {s : Task × List String}
    (h : a.newType = none ∨ a.newType = t0.type) :
    diffType a t0 s = s := by
  cases ht : a.newType with
  | none => simp [diffType, ht]
  | some ty =>
    rcases h with h | h
    · simp [h] at ht
    · rw [ht] at h
      simp [diffType, ht, ← h]

/-- An absent `newCustomNotificationTime` leaves the diff unchanged. -/
theorem diffCustom_id {fmtFull : Int → String} {a : UpdateArgs} {t0 : Task}
    {s : Task × List String} (h : a.newCustomNotificationTime = none) :
    diffCustom fmtFull a t0 s = s := by
  simp [diffCustom, h]

/-- An absent or completion-preserving `newStatus` leaves the diff unchanged. -/
theorem diffStatus_id {now : Int} {a : UpdateArgs} {t0 : Task}
    {s : Task × List String}
    (h : a.newStatus = none ∨ a.newStatus =
      some (if t0.isCompleted then TaskStatus.completed else TaskStatus.pending)) :
    diffStatus now a t0 s = s := by
  cases hs : a.newStatus with
  | none => simp [diffStatus, hs]
  | some st =>
    rcases h with h | h
    · simp [h] at hs
    · rw [hs] at h
      have hst : st = if t0.isCompleted then TaskStatus.completed
          else TaskStatus.pending := by
        injection h
      subst hst
      by_cases hb : t0.isCompleted <;> simp [diffStatus, hs, hb]

/-- When every supplied non-custom field matches the current record and no
custom notification time is supplied, the diff is empty. -/
theorem buildChanges_id {fmtMed fmtFull : Int → String} {now : Int} {t0 : Task}
    {a : UpdateArgs} (h : argsMatchCurrent t0 a)
    (hcust : a.newCustomNotificationTime = none) :
    buildChanges fmtMed fmtFull now t0 a = (t0, []) := by
  obtain ⟨h1, h2, h3, h4, h5, h6⟩ := h
  unfold buildChanges
  rw [diffName_id h1, diffDue_id h2, diffPriority_id h3, diffCategory_id h4,
    diffType_id h5, diffCustom_id hcust, diffStatus_id h6]

/-- A supplied `newCustomNotificationTime` always appends a change entry. -/
theorem diffCustom_ne_nil {fmtFull : Int → String} {a : UpdateArgs} {t0 : Task}
    {s : Task × List String} {v : Option Int}
    (h : a.newCustomNotificationTime = some v) :
    (diffCustom fmtFull a t0 s).2 ≠ [] := by
  simp [diffCustom, h]

/-- The status step never empties a non-empty change list. -/
theorem diffStatus_ne_nil {now : Int} {a : UpdateArgs} {t0 : Task}
    {s : Task × List String} (h : s.2 ≠ []) :
    (diffStatus now a t0 s).2 ≠ [] := by
  unfold diffStatus
  cases hs : a.newStatus with
  | none => simpa [hs] using h
  | some st =>
    simp only [hs]
    split
    · simp
    · exact h

/-- Claim C8, counterexample: supplying `newCustomNotificationTime` equal to the
current value still produces a change entry — and hence a store write and a
non-neutral response — so "any supplied field equal to its current value
produces no change entry" fails for this field. -/
theorem c8_counterexample :
    c8Task.customNotificationTime = some 700 ∧
    (buildChanges fmtNum fmtNum 50 c8Task
        { taskId := "task-d", newCustomNotificationTime := some (some 700) }).2 =
      ["Custom notification for \x27Standup\x27 has been set to 700."] ∧
    (handleUpdateTask fmtNum fmtNum 50 [c8Task]
        { taskId := "task-d", newCustomNotificationTime := some (some 700) }).2 ≠
      "No changes were needed for the task \"Standup\"." := by
  decide

/-- Claim C8, amended: an unresolved `taskId` yields the not-found message as a
plain string with the store unchanged; an empty diff yields the neutral
"no changes needed" message with the store untouched; supplied fields other
than the custom notification time that equal their current values produce no
change entry; but a supplied `newCustomNotificationTime` always produces a
change entry, even when equal to the current value. -/
theorem c8_update_diff_and_errors :
    (∀ (fmtMed fmtFull : Int → String) (now : Int) (tasks : List Task)
       (a : UpdateArgs),
      tasks.find? (fun t => decide (t.id = a.taskId)) = none →
      handleUpdateTask fmtMed fmtFull now tasks a = (tasks, notFoundMessage)) ∧
    (∀ (fmtMed fmtFull : Int → String) (now : Int) (tasks : List Task)
       (a : UpdateArgs) (t0 : Task),
      tasks.find? (fun t => decide (t.id = a.taskId)) = some t0 →
      (buildChanges fmtMed fmtFull now t0 a).2 = [] →
      handleUpdateTask fmtMed fmtFull now tasks a =
        (tasks, "No changes were needed for the task \"" ++ t0.text ++ "\".")) ∧
    (∀ (fmtMed fmtFull : Int → String) (now : Int) (t0 : Task) (a : UpdateArgs),
      argsMatchCurrent t0 a → a.newCustomNotificationTime = none →
      (buildChanges fmtMed fmtFull now t0 a).2 = []) ∧
    (∀ (fmtMed fmtFull : Int → String) (now : Int) (t0 : Task) (a : UpdateArgs)
       (v : Option Int),
      a.newCustomNotificationTime = some v →
      (buildChanges fmtMed fmtFull now t0 a).2 ≠ []) := by
  refine ⟨?_, ?_, ?_, ?_⟩
  · intro fmtMed fmtFull now tasks a hfind
    simp [handleUpdateTask, hfind]
  · intro fmtMed fmtFull now tasks a t0 hfind hnil
    simp [handleUpdateTask, hfind, hnil]
  · intro fmtMed fmtFull now t0 a h hcust
    rw [buildChanges_id h hcust]
  · intro fmtMed fmtFull now t0 a v hcust
    unfold buildChanges
    exact diffStatus_ne_nil (diffCustom_ne_nil hcust)

/-- Witness for C8: a supplied `newPriority` equal to the current priority
produces an empty diff on a concrete task. -/
theorem c8_witness :
    (argsMatchCurrent c8Task
        { taskId := "task-d", newPriority := some Priority.medium } ∧
      ({ taskId := "task-d", newPriority := some Priority.medium } :
        UpdateArgs).newCustomNotificationTime = none) ∧
    (buildChanges fmtNum fmtNum 50 c8Task
        { taskId := "task-d", newPriority := some Priority.medium }).2 = [] :=
  ⟨⟨by decide, rfl⟩, c8_update_diff_and_errors.2.2.1 fmtNum fmtNum 50 c8Task
    { taskId := "task-d", newPriority := some Priority.medium }
    (by decide) rfl⟩

/-- Claim C4, counterexample: changing the due date and the priority together
returns the terse joined descriptions with no `**Task Details:**` block, even
though a non-due-date field effectively changed. -/
theorem c4_counterexample :
    (handleUpdateTask fmtNum fmtNum 50 [c4Task]
        { taskId := "task-c", newDueDate := some 2000,
          newPriority := some Priority.high }).2 =
      "Deadline for \x27Report\x27 has been changed to 2000. Priority for \x27Report\x27 has been changed to high." ∧
    strContains (handleUpdateTask fmtNum fmtNum 50 [c4Task]
        { taskId := "task-c", newDueDate := some 2000,
          newPriority := some Priority.high }).2 "**Task Details:**" = false ∧
    (handleUpdateTask fmtNum fmtNum 50 [c4Task]
        { taskId := "task-c", newDueDate := some 2000,
          newPriority := some Priority.high }).1 =
      [{ c4Task with dueDate := some 2000, priority := Priority.high }] := by
  decide

/-- Claim C4, amended: whenever a `newDueDate` is supplied — alone or combined
with other effective changes — the response is the terse joined change
descriptions with no detail block; the trailing `**Task Details:**` block is
appended exactly when at least one change occurred and no `newDueDate` was
supplied. -/
theorem c4_due_date_suppresses_details :
    ∀ (fmtMed fmtFull : Int → String) (now : Int) (tasks : List Task)
      (a : UpdateArgs) (t0 : Task),
      tasks.find? (fun t => decide (t.id = a.taskId)) = some t0 →
      (buildChanges fmtMed fmtFull now t0 a).2 ≠ [] →
      (handleUpdateTask fmtMed fmtFull now tasks a).2 =
        (if a.newDueDate.isSome then
          String.intercalate " " (buildChanges fmtMed fmtFull now t0 a).2
         else
          String.intercalate " " (buildChanges fmtMed fmtFull now t0 a).2 ++
            taskDetailsBlock fmtFull (buildChanges fmtMed fmtFull now t0 a).1) := by
  intro fmtMed fmtFull now tasks a t0 hfind hne
  simp only [handleUpdateTask, hfind]
  rw [if_neg hne]
  by_cases hd : a.newDueDate.isSome <;> simp [hd]

/-- Witness for C4: a priority-only update on a concrete task appends the
detail block. -/
theorem c4_witness :
    ([c4Task].find? (fun t => decide (t.id = "task-c")) = some c4Task ∧
      (buildChanges fmtNum fmtNum 50 c4Task
        { taskId := "task-c", newPriority := some Priority.high }).2 ≠ []) ∧
    (handleUpdateTask fmtNum fmtNum 50 [c4Task]
        { taskId := "task-c", newPriority := some Priority.high }).2 =
      "Priority for \x27Report\x27 has been changed to high.\n**Task Details:** Name: Report, Status: Pending, Priority: high, Deadline: 1000" := by
  refine ⟨⟨by decide, by decide⟩, ?_⟩
  have h := c4_due_date_suppresses_details fmtNum fmtNum 50 [c4Task]
    { taskId := "task-c", newPriority := some Priority.high } c4Task
    (by decide) (by decide)
  rw [h]
  decide

/-- Claim C2, counterexample: a batch containing a successful deletion and a
successful update resolves to the update confirmation, not the deletion
confirmation: the deletion message is set but loses, refuting the claimed
precedence deletion > update. -/
theorem c2_counterexample :
    c2TurnEnd.taskDeletedMessage =
      "Alright, I\x27ve removed the task: \"Alpha\"." ∧
    resolveConfirmation c2TurnEnd =
      "Priority for \x27Beta\x27 has been changed to high.\n**Task Details:** Name: Beta, Status: Pending, Priority: high" ∧
    resolveConfirmation c2TurnEnd ≠ c2TurnEnd.taskDeletedMessage := by
  decide

/-- Claim C2, amended: the dispatcher applies a batch sequentially in supplied
order, and one final message is resolved by fixed highest-wins precedence in
the opposite orientation to the claim: raw conversational text >
notification-schedule report > productivity-analysis report >
update-confirmation > deletion-confirmation > combined creation/reminder
confirmation. -/
theorem c2_sequential_and_precedence :
    (∀ (userName collab : String) (fmtMed fmtFull : Int → String)
       (st : TurnState) (c : ToolCall) (cs : List ToolCall),
      processCalls userName collab fmtMed fmtFull st (c :: cs) =
        processCalls userName collab fmtMed fmtFull
          (applyCall userName collab fmtMed fmtFull st c) cs) ∧
    (∀ st : TurnState, resolveConfirmation st = confirmationByPrecedence st) ∧
    (∀ (aiText : String) (st : TurnState), trimString aiText ≠ "" →
      finalAssistantMessage aiText st = some (trimString aiText)) ∧
    (∀ (aiText : String) (st : TurnState), trimString aiText = "" →
      resolveConfirmation st ≠ "" →
      finalAssistantMessage aiText st = some (resolveConfirmation st)) := by
  refine ⟨fun _ _ _ _ _ _ _ => rfl, ?_, ?_, ?_⟩
  · intro st
    unfold resolveConfirmation confirmationByPrecedence
    by_cases h1 : st.scheduleMessage = "" <;>
      by_cases h2 : st.analysisMessage = "" <;>
        by_cases h3 : st.updateMessage = "" <;>
          by_cases h4 : st.taskDeletedMessage = "" <;>
            simp [h1, h2, h3, h4]
  · intro aiText st h
    simp [finalAssistantMessage, h]
  · intro aiText st h hconf
    simp [finalAssistantMessage, h, hconf]

/-- Witness for C2: non-empty streamed model text wins over every
confirmation, evaluated on the concrete turn of the counterexample state. -/
theorem c2_witness :
    (trimString "Sounds good!" ≠ "") ∧
    finalAssistantMessage "Sounds good!" c2TurnEnd =
      some (trimString "Sounds good!") :=
  ⟨by decide, c2_sequential_and_precedence.2.2.1 "Sounds good!" c2TurnEnd
    (by decide)⟩

/-- Claim C10, code bug: two `createTask` invocations processed in one turn
while `Date.now()` yields the same millisecond (clock value 111 twice)
produce two distinct records with the same id `task-111`: the store then
holds duplicate ids, violating the uniqueness invariant. -/
theorem c10_duplicate_ids_same_millisecond :
    ((processCalls "alice" "" fmtNum fmtNum { tasks := [], clock := [111, 111] }
        [ToolCall.createTask { text := "First" },
         ToolCall.createTask { text := "Second" }]).tasks.map Task.id) =
      ["task-111", "task-111"] ∧
    ¬ ((processCalls "alice" "" fmtNum fmtNum
        { tasks := [], clock := [111, 111] }
        [ToolCall.createTask { text := "First" },
         ToolCall.createTask { text := "Second" }]).tasks.map Task.id).Nodup := by
  constructor
  · decide
  · decide

end Taskbuddy
